import Mathlib

/-! Verification of the core client logic of the predictionShiftReact dashboard,
as a shallow embedding of the app source. Covered: the useApi fetch-hook state
lifecycle, the sparkline chart normalizer buildNormPoints, the composite
market-shift index computation, and the screener filter/sort/paginate engine
(passMin, sortRows, applyFilters, refreshOnly, totalPages, page clamping).
JavaScript numbers are modelled as exact rationals (floating-point rounding is
out of scope); JSON field values are modelled by the JsVal type, with undefined
standing for an absent field. -/

/-- A JavaScript primitive as it appears in a row-object field: a finite
number, a string, null, or undefined (absent field). NaN number values do not
arise in the modelled data; a failed numeric coercion is represented by the
Option layer of jsNumber instead. -/
inductive JsVal where
  | num (q : ℚ)
  | str (s : String)
  | null
  | undef
deriving DecidableEq

/-- Value of a run of decimal digit characters. -/
def natOfDigits (cs : List Char) : ℕ :=
  cs.foldl (fun acc c => 10 * acc + (c.toNat - 48)) 0

/-- Whitespace stripped by the JavaScript Number(string) coercion
(restricted to the common ASCII whitespace characters). -/
def isWsChar (c : Char) : Bool :=
  c = ' ' || c = '\t' || c = '\n' || c = '\r'

/-- Strip leading and trailing whitespace. -/
def trimChars (cs : List Char) : List Char :=
  ((cs.dropWhile isWsChar).reverse.dropWhile isWsChar).reverse

/-- Model of the JavaScript built-in Number(string) coercion, restricted to
optional-sign decimal literals (the only forms the screener number inputs and
the modelled API fields produce; exponent, hex and Infinity forms are outside
this subset). `none` models NaN; the empty or all-whitespace string coerces
to 0, exactly as in JavaScript. -/
def jsStringToNumber (s : String) : Option ℚ :=
  match trimChars s.toList with
  | [] => some 0
  | c :: cs =>
    let neg := c = '-'
    let body := if c = '-' || c = '+' then cs else c :: cs
    let intPart := body.takeWhile Char.isDigit
    let rest := body.drop intPart.length
    match rest with
    | [] =>
      if intPart.isEmpty then none
      else some (if neg then -(natOfDigits intPart : ℚ) else (natOfDigits intPart : ℚ))
    | '.' :: frac =>
      if frac.all Char.isDigit && !(intPart.isEmpty && frac.isEmpty) then
        some
          (let mag : ℚ :=
            (natOfDigits intPart : ℚ) + (natOfDigits frac : ℚ) / (10 : ℚ) ^ frac.length
          if neg then -mag else mag)
      else none
    | _ => none

/-- Model of the JavaScript Number(v) coercion on a field value: numbers pass
through, strings are parsed, null coerces to 0, undefined to NaN (`none`). -/
def jsNumber : JsVal → Option ℚ
  | .num q => some q
  | .str s => jsStringToNumber s
  | .null => some 0
  | .undef => none

/-- A row object as the generic screener sees it: named fields holding
primitive values; access to a missing field yields undefined. -/
abbrev Row := List (String × JsVal)

/-- Field access `row[name]` on a duck-typed row object. -/
def getField (row : Row) (name : String) : JsVal :=
  match row.find? (fun kv => kv.1 == name) with
  | some kv => kv.2
  | none => JsVal.undef

/-- Lexicographic comparison of character lists by code point, modelling
String.prototype.localeCompare on the ASCII data this app handles. -/
def lexCompare : List Char → List Char → Ordering
  | [], [] => .eq
  | [], _ :: _ => .lt
  | _ :: _, [] => .gt
  | a :: as, b :: bs =>
    if a.toNat < b.toNat then .lt
    else if b.toNat < a.toNat then .gt
    else lexCompare as bs

/-- String comparison used by the screener sort for string fields. -/
def strCompare (a b : String) : Ordering := lexCompare a.toList b.toList

/-! ## The useApi fetch hook (src/unnamed/part_000 lines 9-44 and
src/unnamed/part_002 lines 11-46; both copies are line-for-line identical).

The hook state is the three useState cells (data, loading, error). The parsed
response body is abstracted to an integer; the error object to its message
string. The effect body runs `setLoading(true); setError(null)` and issues the
fetch; the promise chain settles exactly once per request, asynchronously,
with one of three outcomes: success (`setData(json)`), non-abort failure
(`setError(err)`), or an AbortError raised by `controller.abort()` from the
effect cleanup (whose `.catch` branch performs no update). In all three cases
the trailing `.finally(() => setLoading(false))` runs. -/

/-- The `{data, loading, error}` state of one useApi instance. -/
structure ResourceState where
  data : Option ℤ
  loading : Bool
  error : Option String
deriving DecidableEq

/-- Initial state: `useState(null)`, `useState(true)`, `useState(null)`. -/
def initResource : ResourceState := { data := none, loading := true, error := none }

/-- The synchronous start of the effect body for a (new) request identity:
`setLoading(true); setError(null)`, preserving the previous data. -/
def useApiEffectStart (s : ResourceState) : ResourceState :=
  { s with loading := true, error := none }

/-- How the promise chain of a request settles. A request whose AbortController was
aborted before it settled resolves as `aborted` (fetch rejects with an
AbortError). -/
inductive FetchOutcome where
  | success (body : ℤ)
  | failure (msg : String)
  | aborted

/-- The state update performed by the promise handlers when a request settles:
success runs `setData`, a non-abort failure runs `setError`, an AbortError is
swallowed by the `.catch` guard — and the `.finally` handler runs
`setLoading(false)` unconditionally in every one of the three cases. -/
def useApiOnSettle : FetchOutcome → ResourceState → ResourceState
  | .success j, s => { s with data := some j, loading := false }
  | .failure e, s => { s with error := some e, loading := false }
  | .aborted, s => { s with loading := false }

/-! ## Chart normalizer (src/unnamed/part_002 lines 2665-2678, buildNormPoints)

The source returns the points joined into an SVG polyline string; the embedding
returns the list of (x, y) coordinate pairs. -/

/-- `Math.min(...values)` over a non-empty list (the empty case is unreachable
behind the length guard of buildNormPoints; 0 is a junk value for it). -/
def listMin : List ℚ → ℚ
  | [] => 0
  | v :: vs => vs.foldl min v

/-- `Math.max(...values)` over a non-empty list (empty case unreachable). -/
def listMax : List ℚ → ℚ
  | [] => 0
  | v :: vs => vs.foldl max v

/-- `const span = max - min || 1`: the value span, floored to 1 when max
equals min (0 is the only falsy rational). -/
def chartSpan (values : List ℚ) : ℚ :=
  if listMax values - listMin values = 0 then 1
  else listMax values - listMin values

/-- The chart normalizer: for fewer than 2 values the output is empty;
otherwise value i maps to x = i / (n-1) * w and
y = h - pad - ((v - min) / span) * (h - pad * 2). The source defaults are
w = 100, h = 40, pad = 4. -/
def buildNormPoints (values : List ℚ) (w h pad : ℚ) : List (ℚ × ℚ) :=
  if values.length < 2 then []
  else
    values.mapIdx (fun i v =>
      ((i : ℚ) / ((values.length : ℚ) - 1) * w,
        h - pad - (v - listMin values) / chartSpan values * (h - pad * 2)))

/-! ## Composite market-shift index (src/unnamed/part_002 lines 108-137 in
Dashboard, and identically lines 2732-2745 in VolIndexPage) -/

/-- One row of the /global-6h-deltas response: a snapshot timestamp and the
three 6-hour delta fields (volume, open interest, breadth/wide). The fields
are modelled as present numeric values, as delivered by the API. -/
structure DeltaRow where
  snap_ts : String
  d_volume_6h : ℚ
  d_oi_6h : ℚ
  d_wide_6h : ℚ
deriving DecidableEq

/-- The JavaScript `x || 1` fallback on a numeric baseline field: a zero
(falsy) value is replaced by 1. -/
def orOne (q : ℚ) : ℚ := if q = 0 then 1 else q

/-- The composite index: the newest-first input is reversed to earliest-first,
the three delta fields of the earliest row (each `|| 1`) form the baseline, and
every row maps to (snap_ts, 100 * (sum of the three field/baseline ratios) / 3).
Empty input yields empty output (the source computes nothing behind its
`data.length > 0` guard). -/
def compositeIndex (data : List DeltaRow) : List (String × ℚ) :=
  match data.reverse with
  | [] => []
  | first :: rest =>
    (first :: rest).map (fun row =>
      (row.snap_ts,
        100 * (row.d_volume_6h / orOne first.d_volume_6h
          + row.d_oi_6h / orOne first.d_oi_6h
          + row.d_wide_6h / orOne first.d_wide_6h) / 3))

/-! ## Screener engine (src/unnamed/part_002 lines 504-615, ScreenerPage) -/

/-- The screener filter/sort form state (all five thresholds are strings from
number inputs; empty string means unset). -/
structure ScreenerForm where
  minVolume : String
  minOpenInterest : String
  minSpread : String
  minTradability : String
  minChurn : String
  sortBy : String
  sortDir : String
deriving DecidableEq

/-- passMin (lines 533-543): an empty threshold always passes (the null and
undefined guards of the source are unreachable, the form always holds
strings); a threshold that coerces to NaN always passes; a numeric row value
is compared directly; any other row value is coerced with Number and fails on
NaN. -/
def passMin (value : JsVal) (minValue : String) : Bool :=
  if minValue = "" then true
  else
    match jsStringToNumber minValue with
    | none => true
    | some mn =>
      match value with
      | .num q => decide (mn ≤ q)
      | v =>
        match jsNumber v with
        | none => false
        | some nv => decide (mn ≤ nv)

/-- The conjunction of the five threshold filters applied to one row
(the filter body of applyFilters, lines 574-580). -/
def screenerRowPasses (form : ScreenerForm) (row : Row) : Bool :=
  passMin (getField row "volume") form.minVolume &&
  passMin (getField row "open_interest") form.minOpenInterest &&
  passMin (getField row "spread_ticks") form.minSpread &&
  passMin (getField row "tradability_score") form.minTradability &&
  passMin (getField row "churn_rate") form.minChurn

/-- Three-way comparison on rationals (the sign of a JavaScript numeric
comparator result). -/
def cmpRat (a b : ℚ) : Ordering :=
  if a < b then .lt else if b < a then .gt else .eq

/-- Comparison of the safe values of the comparator, where `none` models the
-Infinity substituted for a non-finite coercion. Two -Infinity operands give
`safeA - safeB = NaN`, which Array.prototype.sort treats as 0, hence `.eq`. -/
def cmpSafe (x y : Option ℚ) : Ordering :=
  match x, y with
  | none, none => .eq
  | none, some _ => .lt
  | some _, none => .gt
  | some a, some b => cmpRat a b

/-- The sortRows comparator (lines 547-563), as the Ordering given by the sign
of the returned number: two strings compare with localeCompare honoring the
direction; otherwise both values are coerced with Number, non-finite results
are replaced by -Infinity, and the difference is taken in the requested
direction. -/
def screenerCompare (sortDir : String) (aVal bVal : JsVal) : Ordering :=
  match aVal, bVal with
  | .str sa, .str sb => if sortDir = "asc" then strCompare sa sb else strCompare sb sa
  | a, b =>
    if sortDir = "asc" then cmpSafe (jsNumber a) (jsNumber b)
    else cmpSafe (jsNumber b) (jsNumber a)

/-- sortRows (lines 545-566): a copy of the rows sorted with the comparator on
the configured field. Array.prototype.sort is modelled as a stable merge sort
keeping a before b whenever the comparator is non-positive. -/
def sortRows (sortBy sortDir : String) (rows : List Row) : List Row :=
  rows.mergeSort (fun a b =>
    screenerCompare sortDir (getField a sortBy) (getField b sortBy) != Ordering.gt)

/-- applyFilters (lines 573-585), as the derived row list it stores in
filteredRows: the rows surviving the five threshold filters, sorted. -/
def applyFilters (form : ScreenerForm) (allRows : List Row) : List Row :=
  sortRows form.sortBy form.sortDir
    (allRows.filter (fun row => screenerRowPasses form row))

/-- The ScreenerPage state cells relevant to refresh, filtering and
pagination. -/
structure ScreenerState where
  form : ScreenerForm
  refreshNonce : ℕ
  allRows : List Row
  filteredRows : List Row
  page : ℕ
  pageSize : ℕ
deriving DecidableEq

/-- refreshOnly (lines 601-603): `setRefreshNonce((n) => n + 1)` and nothing
else. -/
def refreshOnly (s : ScreenerState) : ScreenerState :=
  { s with refreshNonce := s.refreshNonce + 1 }

/-- The data-arrival effect of ScreenerPage (lines 525-531), run whenever
`screener.data` changes — in particular once the response of every refreshed
request arrives, since each fetch parses a fresh array object: when the data
is an array it stores the raw rows into allRows and filteredRows and resets
the page to 1; non-array data (`none`) leaves the state unchanged. -/
def screenerDataArrived (data : Option (List Row)) (s : ScreenerState) : ScreenerState :=
  match data with
  | some rows => { s with allRows := rows, filteredRows := rows, page := 1 }
  | none => s

/-- The parameter mapping passed to useApi by ScreenerPage (lines 520-523):
`{ limit: 250, _refresh: refreshNonce }`, in insertion order. Together with
the endpoint it forms the request identity. -/
def screenerRequestParams (s : ScreenerState) : List (String × ℕ) :=
  [("limit", 250), ("_refresh", s.refreshNonce)]

/-- totalPages (lines 605-608):
`Math.max(1, Math.ceil(filteredRows.length / pageSize) || 1)` (the
`?? 0` fallback on the length is unreachable for a concrete row list). -/
def totalPages (count pageSize : ℕ) : ℕ :=
  max 1
    (if (Int.ceil ((count : ℚ) / (pageSize : ℚ))).toNat = 0 then 1
     else (Int.ceil ((count : ℚ) / (pageSize : ℚ))).toNat)

/-- The reclamping effect on the page (lines 610-612):
`setPage((prev) => Math.min(prev, totalPages))`, run automatically whenever
totalPages changes. -/
def clampPage (prev total : ℕ) : ℕ := min prev total

/-! ## Specification-side definitions, written from the words of the spec, for the
refinement-style claims. -/

/-- Spec-side x coordinate of the chart normalizer at the default width 100:
x for index i = i / (n - 1) * width. -/
def specChartX (n i : ℕ) : ℚ := (i : ℚ) / ((n : ℚ) - 1) * 100

/-- Spec-side y coordinate at the default height 40 and padding 4:
y = height - pad - ((value - min) / span) * (height - 2 * pad). -/
def specChartY (mn span v : ℚ) : ℚ := 40 - 4 - (v - mn) / span * (40 - 2 * 4)

/-- Embed a safe comparator value into the order with a genuine bottom
element: an unparseable/missing value is negative infinity. -/
def wbOf : Option ℚ → WithBot ℚ
  | none => ⊥
  | some q => (q : WithBot ℚ)

/-- Three-way comparison in the WithBot order. -/
def cmpWithBot (x y : WithBot ℚ) : Ordering :=
  if x < y then .lt else if y < x then .gt else .eq

/-- Spec-side comparator: when both values are strings, lexical comparison
honoring the direction; otherwise both coerce to numbers with
missing/unparseable values treated as negative infinity (the bottom of
WithBot) and compare in the order, honoring the direction. -/
def specCompare (sortDir : String) (a b : JsVal) : Ordering :=
  match a, b with
  | .str sa, .str sb => if sortDir = "asc" then strCompare sa sb else strCompare sb sa
  | a, b =>
    if sortDir = "asc" then cmpWithBot (wbOf (jsNumber a)) (wbOf (jsNumber b))
    else cmpWithBot (wbOf (jsNumber b)) (wbOf (jsNumber a))

/-- Spec-side reading of one threshold filter: an empty/unset entry always
passes; otherwise the field value of the row, coerced to a number, must be at
least the threshold (a value that fails coercion fails the filter). -/
def specPassMin (value : JsVal) (minStr : String) : Prop :=
  minStr = "" ∨
    ∃ t, jsStringToNumber minStr = some t ∧ ∃ q, jsNumber value = some q ∧ t ≤ q

/-- Spec-side reading of the whole filter: every configured threshold filter
must hold of the row. -/
def specRowPasses (form : ScreenerForm) (row : Row) : Prop :=
  specPassMin (getField row "volume") form.minVolume ∧
  specPassMin (getField row "open_interest") form.minOpenInterest ∧
  specPassMin (getField row "spread_ticks") form.minSpread ∧
  specPassMin (getField row "tradability_score") form.minTradability ∧
  specPassMin (getField row "churn_rate") form.minChurn

/-- A threshold entry that is either unset or parses to an actual number
(the regime the filter claim describes; an unparseable non-empty threshold is
the separate degenerate case of passMin). -/
def thresholdParses (minStr : String) : Prop :=
  minStr = "" ∨ (jsStringToNumber minStr).isSome = true

/-- All five screener thresholds are unset or parse. -/
def thresholdsOk (form : ScreenerForm) : Prop :=
  thresholdParses form.minVolume ∧ thresholdParses form.minOpenInterest ∧
  thresholdParses form.minSpread ∧ thresholdParses form.minTradability ∧
  thresholdParses form.minChurn

/-- The screener form with Min Volume set to 60 and everything else at its
reset defaults. -/
def exScreenerForm : ScreenerForm :=
  { minVolume := "60", minOpenInterest := "", minSpread := "",
    minTradability := "", minChurn := "",
    sortBy := "tradability_score", sortDir := "desc" }

/-- Example row with volume 100. -/
def rowVol100 : Row := [("volume", JsVal.num 100)]

/-- Example row with volume 50. -/
def rowVol50 : Row := [("volume", JsVal.num 50)]

/-- Example row whose volume is the non-numeric string value. -/
def rowVolBad : Row := [("volume", JsVal.str "bad")]

/-- An example screener state sitting on page 3 with a filtered row list. -/
def exScreenerState : ScreenerState :=
  { form := exScreenerForm, refreshNonce := 0,
    allRows := [rowVol100, rowVol50], filteredRows := [rowVol100],
    page := 3, pageSize := 25 }

/-! ## Theorems -/

/-- C1 (counterexample): the claim that the late resolution of a superseded request
produces no state change at all fails on the code. In the supersede trace
(effect for request 1 starts, the identity changes so the cleanup aborts
request 1 and the effect for request 2 starts), the late AbortError resolution
of request 1 does change the hook state: its `.finally` handler sets the
loading flag to false. -/
theorem useApi_superseded_changes_state :
    useApiOnSettle FetchOutcome.aborted (useApiEffectStart (useApiEffectStart initResource))
      ≠ useApiEffectStart (useApiEffectStart initResource) := by
  decide

/-- C1 (amended): if a second request is issued before the first settles, the
first is aborted and its late resolution changes neither data nor error — only
the outcome of the second request is ever reflected in data and error — but the
`.finally` handler of the superseded request does set loading to false, clearing
the loading flag while the second request is still in flight. -/
theorem useApi_superseded_amended :
    (∀ s : ResourceState,
      (useApiOnSettle FetchOutcome.aborted s).data = s.data ∧
      (useApiOnSettle FetchOutcome.aborted s).error = s.error ∧
      (useApiOnSettle FetchOutcome.aborted s).loading = false) ∧
    (useApiEffectStart (useApiEffectStart initResource)).loading = true ∧
    (∀ body : ℤ,
      useApiOnSettle (FetchOutcome.success body)
          (useApiOnSettle FetchOutcome.aborted
            (useApiEffectStart (useApiEffectStart initResource)))
        = { data := some body, loading := false, error := none }) ∧
    (∀ msg : String,
      useApiOnSettle (FetchOutcome.failure msg)
          (useApiOnSettle FetchOutcome.aborted
            (useApiEffectStart (useApiEffectStart initResource)))
        = { data := none, loading := false, error := some msg }) :=
  ⟨fun _ => ⟨rfl, rfl, rfl⟩, rfl, fun _ => rfl, fun _ => rfl⟩

/-- C2 (counterexample): the claim that Refresh leaves the current page
selection unaltered fails on the code. After refreshOnly, the refreshed
response arrives and the data effect (lines 525-531) fires — every fetch
parses a fresh array object — resetting the page to 1 and replacing
filteredRows with the raw row set. Concretely, a refresh from page 3 with a
filtered row list lands on page 1 with the filters discarded. -/
theorem refresh_data_arrival_resets_page :
    (screenerDataArrived (some [rowVol100, rowVol50])
        (refreshOnly exScreenerState)).page ≠ exScreenerState.page ∧
    (screenerDataArrived (some [rowVol100, rowVol50])
        (refreshOnly exScreenerState)).filteredRows ≠ exScreenerState.filteredRows := by
  constructor
  · decide
  · decide

/-- C2 (amended): the Refresh action itself only increments the nonce, which
changes the request identity (the parameter mapping passed to useApi), and
leaves the filter and sort form, the row lists, the page and the page size
untouched at that instant; but once the refreshed data arrives, the
data-arrival effect replaces allRows and filteredRows with the raw rows
(discarding applied filters) and resets the page to 1, while still leaving
the filter and sort form selections and the page size unaltered. -/
theorem refreshOnly_amended :
    (∀ s : ScreenerState,
      screenerRequestParams (refreshOnly s) ≠ screenerRequestParams s ∧
      (refreshOnly s).form = s.form ∧
      (refreshOnly s).allRows = s.allRows ∧
      (refreshOnly s).filteredRows = s.filteredRows ∧
      (refreshOnly s).page = s.page ∧
      (refreshOnly s).pageSize = s.pageSize) ∧
    (∀ (s : ScreenerState) (rows : List Row),
      (screenerDataArrived (some rows) s).form = s.form ∧
      (screenerDataArrived (some rows) s).pageSize = s.pageSize ∧
      (screenerDataArrived (some rows) s).refreshNonce = s.refreshNonce ∧
      (screenerDataArrived (some rows) s).page = 1 ∧
      (screenerDataArrived (some rows) s).allRows = rows ∧
      (screenerDataArrived (some rows) s).filteredRows = rows) := by
  constructor
  · intro s
    refine ⟨?_, rfl, rfl, rfl, rfl, rfl⟩
    simp [screenerRequestParams, refreshOnly]
  · intro s rows
    exact ⟨rfl, rfl, rfl, rfl, rfl, rfl⟩

/-- C3: for an input with fewer than 2 values the chart normalizer returns
the empty sequence. -/
theorem buildNormPoints_short (values : List ℚ) (w h pad : ℚ)
    (hlt : values.length < 2) :
    buildNormPoints values w h pad = [] := by
  simp [buildNormPoints, hlt]

/-- C3 (witness): the singleton series has length below 2 and yields no
points. -/
theorem buildNormPoints_short_witness :
    [(5 : ℚ)].length < 2 ∧ buildNormPoints [(5 : ℚ)] 100 40 4 = [] :=
  ⟨by decide, buildNormPoints_short [(5 : ℚ)] 100 40 4 (by decide)⟩

/-- C10: a non-empty threshold that fails numeric coercion (Number gives NaN)
makes passMin accept every row value, behaving like an unset filter. -/
theorem passMin_nan_threshold (value : JsVal) (minStr : String)
    (hne : minStr ≠ "") (hnan : jsStringToNumber minStr = none) :
    passMin value minStr = true := by
  simp [passMin, hne, hnan]

/-- C10 (witness): the threshold string is non-empty and unparseable, and
passMin accepts a concrete row value under it. -/
theorem passMin_nan_threshold_witness :
    ("abc" : String) ≠ "" ∧ jsStringToNumber "abc" = none ∧
    passMin (JsVal.num 5) "abc" = true :=
  ⟨by decide, by decide, passMin_nan_threshold (JsVal.num 5) "abc" (by decide) (by decide)⟩

/-- Folding min over a list of copies of c, starting from c, stays at c. -/
theorem foldl_min_const (c : ℚ) :
    ∀ (l : List ℚ), (∀ v ∈ l, v = c) → l.foldl min c = c
  | [], _ => rfl
  | v :: vs, h => by
    have hv : v = c := h v (by simp)
    rw [List.foldl_cons, hv, min_self]
    exact foldl_min_const c vs (fun x hx => h x (by simp [hx]))

/-- Folding max over a list of copies of c, starting from c, stays at c. -/
theorem foldl_max_const (c : ℚ) :
    ∀ (l : List ℚ), (∀ v ∈ l, v = c) → l.foldl max c = c
  | [], _ => rfl
  | v :: vs, h => by
    have hv : v = c := h v (by simp)
    rw [List.foldl_cons, hv, max_self]
    exact foldl_max_const c vs (fun x hx => h x (by simp [hx]))

/-- On a non-empty flat list, listMin is the common value. -/
theorem listMin_const (values : List ℚ) (c : ℚ) (hne : values ≠ [])
    (h : ∀ v ∈ values, v = c) : listMin values = c := by
  cases values with
  | nil => exact absurd rfl hne
  | cons v vs =>
    have hv : v = c := h v (by simp)
    show vs.foldl min v = c
    rw [hv]
    exact foldl_min_const c vs (fun x hx => h x (by simp [hx]))

/-- On a non-empty flat list, listMax is the common value. -/
theorem listMax_const (values : List ℚ) (c : ℚ) (hne : values ≠ [])
    (h : ∀ v ∈ values, v = c) : listMax values = c := by
  cases values with
  | nil => exact absurd rfl hne
  | cons v vs =>
    have hv : v = c := h v (by simp)
    show vs.foldl max v = c
    rw [hv]
    exact foldl_max_const c vs (fun x hx => h x (by simp [hx]))

/-- C4 (counterexample): on the flat series [5, 5] with the default canvas,
the normalizer places both points at y = 36 — the bottom of the padded band —
and 36 is not the mid-band y coordinate 4 + (40 - 2 * 4) / 2 = 20, so the
claim that flat-series points sit at mid-band is false. -/
theorem buildNormPoints_flat_not_midband :
    buildNormPoints [(5 : ℚ), 5] 100 40 4 = [(0, 36), (100, 36)] ∧
    (36 : ℚ) ≠ 4 + (40 - 2 * 4) / 2 := by
  constructor
  · show (if ([(5 : ℚ), 5].length < 2) then _ else _) = _
    rw [if_neg (by decide)]
    norm_num [List.mapIdx_cons, listMin, listMax, chartSpan]
  · norm_num

/-- C4 (amended): for a flat series the normalizer cannot divide by zero —
the span is floored to 1 — and every output point has the same y coordinate,
namely the bottom of the padded band y = h - pad (not mid-band). -/
theorem buildNormPoints_flat (values : List ℚ) (w h pad c : ℚ)
    (hall : ∀ v ∈ values, v = c) :
    (values ≠ [] → chartSpan values = 1) ∧
    ∀ p ∈ buildNormPoints values w h pad, p.2 = h - pad := by
  constructor
  · intro hne
    unfold chartSpan
    rw [listMin_const values c hne hall, listMax_const values c hne hall, sub_self]
    simp
  · intro p hp
    unfold buildNormPoints at hp
    by_cases hlen : values.length < 2
    · rw [if_pos hlen] at hp
      simp at hp
    · rw [if_neg hlen] at hp
      rw [List.mem_mapIdx] at hp
      obtain ⟨i, hi, rfl⟩ := hp
      have hne : values ≠ [] := by
        intro h0
        rw [h0] at hi
        simp at hi
      have hvc : values[i] = c := hall _ (List.getElem_mem hi)
      have hmn : listMin values = c := listMin_const values c hne hall
      simp [hvc, hmn, sub_self]

/-- C4 (witness): the concrete flat series [5, 5] with the default canvas has
span 1 and all its points at y = 40 - 4. -/
theorem buildNormPoints_flat_witness :
    (∀ v ∈ [(5 : ℚ), 5], v = 5) ∧
    (([(5 : ℚ), 5] ≠ []) → chartSpan [(5 : ℚ), 5] = 1) ∧
    (∀ p ∈ buildNormPoints [(5 : ℚ), 5] 100 40 4, p.2 = 40 - 4) :=
  ⟨by decide, buildNormPoints_flat [(5 : ℚ), 5] 100 40 4 5 (by decide)⟩

/-- C5: for n at least 2, the normalizer with default canvas 100 by 40 with
padding 4 maps value i to exactly the spec coordinates
x = i / (n - 1) * 100 and y = 40 - 4 - ((v - min) / span) * (40 - 2 * 4). -/
theorem buildNormPoints_formula (values : List ℚ) (h2 : 2 ≤ values.length) :
    buildNormPoints values 100 40 4 =
      values.mapIdx (fun i v =>
        (specChartX values.length i,
         specChartY (listMin values) (chartSpan values) v)) := by
  unfold buildNormPoints specChartX specChartY
  rw [if_neg (by omega)]
  norm_num

/-- C5 (witness): the two-point series [0, 10] satisfies the length bound and
the coordinate formula. -/
theorem buildNormPoints_formula_witness :
    2 ≤ [(0 : ℚ), 10].length ∧
    buildNormPoints [(0 : ℚ), 10] 100 40 4 =
      [(0 : ℚ), 10].mapIdx (fun i v =>
        (specChartX [(0 : ℚ), 10].length i,
         specChartY (listMin [(0 : ℚ), 10]) (chartSpan [(0 : ℚ), 10]) v)) :=
  ⟨by decide, buildNormPoints_formula [(0 : ℚ), 10] (by decide)⟩

/-- C6: when the newest-first input reverses to an earliest-first list headed
by the baseline row, every row maps to 100 * (sum of its three field-over-
baseline ratios) / 3, with zero baseline fields replaced by 1; on the concrete
newest-first input whose earliest-first rows carry deltas (2, 4, 6) and
(4, 8, 12), the baseline row scores 100 and the second row 200. -/
theorem compositeIndex_spec (data : List DeltaRow) (first : DeltaRow)
    (rest : List DeltaRow) (h : data.reverse = first :: rest) :
    compositeIndex data = (first :: rest).map (fun row =>
      (row.snap_ts,
        100 * (row.d_volume_6h / orOne first.d_volume_6h
          + row.d_oi_6h / orOne first.d_oi_6h
          + row.d_wide_6h / orOne first.d_wide_6h) / 3)) ∧
    compositeIndex [⟨"t2", 4, 8, 12⟩, ⟨"t1", 2, 4, 6⟩]
      = [("t1", 100), ("t2", 200)] := by
  constructor
  · unfold compositeIndex
    rw [h]
  · norm_num [compositeIndex, orOne]

/-- C6 (witness): the concrete newest-first input reverses to the
earliest-first pair, and the characterization and concrete scores hold there. -/
theorem compositeIndex_spec_witness :
    ([⟨"t2", 4, 8, 12⟩, ⟨"t1", 2, 4, 6⟩] : List DeltaRow).reverse
        = (⟨"t1", 2, 4, 6⟩ : DeltaRow) :: [⟨"t2", 4, 8, 12⟩] ∧
    (compositeIndex [⟨"t2", 4, 8, 12⟩, ⟨"t1", 2, 4, 6⟩]
        = ((⟨"t1", 2, 4, 6⟩ : DeltaRow) :: [⟨"t2", 4, 8, 12⟩]).map (fun row =>
          (row.snap_ts,
            100 * (row.d_volume_6h / orOne (2 : ℚ)
              + row.d_oi_6h / orOne (4 : ℚ)
              + row.d_wide_6h / orOne (6 : ℚ)) / 3)) ∧
      compositeIndex [⟨"t2", 4, 8, 12⟩, ⟨"t1", 2, 4, 6⟩]
        = [("t1", 100), ("t2", 200)]) :=
  ⟨rfl, compositeIndex_spec _ _ _ rfl⟩

/-- C9: totalPages equals max(1, ceil(count / pageSize)); the reclamping
effect keeps the page inside [1, totalPages] whenever the page was at least 1;
and concretely 47 rows at page size 25 give 2 pages, with a requested page 5
clamped to 2. -/
theorem screenerPagination_spec (count pageSize prev : ℕ) (hprev : 1 ≤ prev) :
    totalPages count pageSize
        = max 1 (Int.ceil ((count : ℚ) / (pageSize : ℚ))).toNat ∧
    1 ≤ clampPage prev (totalPages count pageSize) ∧
    clampPage prev (totalPages count pageSize) ≤ totalPages count pageSize ∧
    totalPages 47 25 = 2 ∧
    clampPage 5 (totalPages 47 25) = 2 := by
  have htp : ∀ a b : ℕ, totalPages a b
      = max 1 (Int.ceil ((a : ℚ) / (b : ℚ))).toNat := by
    intro a b
    unfold totalPages
    by_cases hc : (Int.ceil ((a : ℚ) / (b : ℚ))).toNat = 0
    · rw [if_pos hc, hc]
      simp
    · rw [if_neg hc]
  have hceil : (Int.ceil ((47 : ℚ) / (25 : ℚ))) = 2 := by
    rw [Int.ceil_eq_iff]
    constructor <;> norm_num
  have h4725 : totalPages 47 25 = 2 := by
    rw [htp 47 25]
    rw [show (((47 : ℕ) : ℚ) / ((25 : ℕ) : ℚ)) = (47 : ℚ) / (25 : ℚ) by norm_num]
    rw [hceil]
    decide
  refine ⟨htp count pageSize, ?_, ?_, h4725, ?_⟩
  · exact le_min hprev (le_max_left 1 _)
  · exact min_le_right _ _
  · rw [h4725]
    decide

/-- C9 (witness): 47 rows at page size 25, with a requested page of 5. -/
theorem screenerPagination_spec_witness :
    1 ≤ 5 ∧
    (totalPages 47 25 = max 1 (Int.ceil (((47 : ℕ) : ℚ) / ((25 : ℕ) : ℚ))).toNat ∧
     1 ≤ clampPage 5 (totalPages 47 25) ∧
     clampPage 5 (totalPages 47 25) ≤ totalPages 47 25 ∧
     totalPages 47 25 = 2 ∧
     clampPage 5 (totalPages 47 25) = 2) :=
  ⟨by decide, screenerPagination_spec 47 25 5 (by decide)⟩

/-- One threshold filter of passMin agrees with its spec reading whenever the
threshold is unset or parses to a number. -/
theorem passMin_iff_spec (value : JsVal) (minStr : String)
    (h : thresholdParses minStr) :
    passMin value minStr = true ↔ specPassMin value minStr := by
  by_cases hm : minStr = ""
  · simp [passMin, hm, specPassMin]
  · rcases h with h | h
    · exact absurd h hm
    · cases hp : jsStringToNumber minStr with
      | none => rw [hp] at h; simp at h
      | some t =>
        cases value with
        | num q => simp [passMin, hm, hp, specPassMin, jsNumber]
        | str s =>
          cases hs : jsStringToNumber s with
          | none => simp [passMin, hm, hp, specPassMin, jsNumber, hs]
          | some q => simp [passMin, hm, hp, specPassMin, jsNumber, hs]
        | null => simp [passMin, hm, hp, specPassMin, jsNumber]
        | undef => simp [passMin, hm, hp, specPassMin, jsNumber]

/-- The five-fold filter conjunction agrees with its spec reading whenever
every threshold is unset or parses. -/
theorem screenerRowPasses_iff_spec (form : ScreenerForm) (row : Row)
    (hok : thresholdsOk form) :
    screenerRowPasses form row = true ↔ specRowPasses form row := by
  obtain ⟨h1, h2, h3, h4, h5⟩ := hok
  unfold screenerRowPasses specRowPasses
  simp only [Bool.and_eq_true]
  rw [passMin_iff_spec _ _ h1, passMin_iff_spec _ _ h2, passMin_iff_spec _ _ h3,
    passMin_iff_spec _ _ h4, passMin_iff_spec _ _ h5]
  tauto

/-- C7: whenever every configured threshold parses, a row appears in the
applyFilters output iff it is an input row and, for each configured
minimum-threshold filter, its field value coerces to a number at least the
threshold (unset entries always pass, values failing coercion fail); and on
the concrete rows with volumes 100, 50 and a non-numeric string, a Min Volume
threshold of 60 keeps exactly the volume-100 row. -/
theorem applyFilters_spec :
    (∀ (form : ScreenerForm) (rows : List Row) (row : Row), thresholdsOk form →
      (row ∈ applyFilters form rows ↔ row ∈ rows ∧ specRowPasses form row)) ∧
    applyFilters exScreenerForm [rowVol100, rowVol50, rowVolBad] = [rowVol100] := by
  constructor
  · intro form rows row hok
    unfold applyFilters sortRows
    rw [(List.mergeSort_perm _ _).mem_iff]
    simp only [List.mem_filter]
    rw [screenerRowPasses_iff_spec form row hok]
  · have hf : List.filter (fun row => screenerRowPasses exScreenerForm row)
        [rowVol100, rowVol50, rowVolBad] = [rowVol100] := by decide
    unfold applyFilters
    rw [hf]
    simp [sortRows, List.mergeSort]

/-- C7 (witness): the concrete form parses its thresholds and the membership
characterization holds for the volume-100 row among the example rows. -/
theorem applyFilters_spec_witness :
    thresholdsOk exScreenerForm ∧
    (rowVol100 ∈ applyFilters exScreenerForm [rowVol100, rowVol50, rowVolBad] ↔
      rowVol100 ∈ [rowVol100, rowVol50, rowVolBad] ∧
        specRowPasses exScreenerForm rowVol100) :=
  ⟨⟨Or.inr rfl, Or.inl rfl, Or.inl rfl, Or.inl rfl, Or.inl rfl⟩,
   applyFilters_spec.1 exScreenerForm [rowVol100, rowVol50, rowVolBad] rowVol100
     ⟨Or.inr rfl, Or.inl rfl, Or.inl rfl, Or.inl rfl, Or.inl rfl⟩⟩

/-- The safe-value comparison of the source comparator coincides with comparison in
the order with a genuine bottom element. -/
theorem cmpSafe_eq_cmpWithBot (x y : Option ℚ) :
    cmpSafe x y = cmpWithBot (wbOf x) (wbOf y) := by
  cases x <;> cases y <;>
    simp [cmpSafe, cmpWithBot, wbOf, cmpRat,
      WithBot.bot_lt_coe, WithBot.coe_lt_coe, not_lt_bot]

/-- C8: the sortRows comparator orders two strings lexically honoring the
direction and otherwise coerces to numbers with missing/unparseable values as
negative infinity (matching the spec-side comparator built on an order with a
bottom element); sortRows permutes its input; and the rows with x values b
and a sorted ascending by x come out in the order a, b. -/
theorem sortRows_spec :
    (∀ (dir : String) (a b : JsVal), screenerCompare dir a b = specCompare dir a b) ∧
    (∀ (sBy sDir : String) (rows : List Row), (sortRows sBy sDir rows).Perm rows) ∧
    sortRows "x" "asc" [[("x", JsVal.str "b")], [("x", JsVal.str "a")]]
      = [[("x", JsVal.str "a")], [("x", JsVal.str "b")]] := by
  refine ⟨?_, ?_, ?_⟩
  · intro dir a b
    cases a <;> cases b <;>
      simp [screenerCompare, specCompare, cmpSafe_eq_cmpWithBot]
  · intro sBy sDir rows
    exact List.mergeSort_perm _ _
  · have hba : screenerCompare "asc" (getField [("x", JsVal.str "b")] "x")
        (getField [("x", JsVal.str "a")] "x") = Ordering.gt := by decide
    have hbne : (Ordering.gt != Ordering.gt) = false := by decide
    simp [sortRows, List.mergeSort, List.merge, hba, hbne]
